import Mathlib

/-!
Shallow embedding of `src/homework.py` (workout statistics calculator).

Numbers are modelled as rationals (`ℚ`): every constant in the source is a
decimal literal and every arithmetic operation is exact on such values, so
the rational semantics mirrors the Python formulas.  Fallible Python code
(constructors that divide by a stored value, the dispatcher) is embedded
with `Except PyError`; a Python function that returns `None` is embedded
with `Option`.
-/

/-- Runtime errors a Python callable in this program could raise. -/
inductive PyError where
  | typeError
  | zeroDivisionError
  | notImplementedError
  deriving DecidableEq

/-- Base class `Training` (lines 19-32): the fields set by `Training.__init__`. -/
structure Training where
  action : ℚ
  duration : ℚ
  weight : ℚ
  deriving DecidableEq

/-- `Training.LEN_STEP` (line 21). -/
def Training.LEN_STEP : ℚ := 0.65

/-- `Training.M_IN_KM` (line 22). -/
def Training.M_IN_KM : ℚ := 1000

/-- `Training.MIN_IN_H` (line 23). -/
def Training.MIN_IN_H : ℚ := 60

/-- `Training.get_distance` (lines 34-36): `action * LEN_STEP / M_IN_KM`. -/
def Training.get_distance (self : Training) : ℚ :=
  self.action * Training.LEN_STEP / Training.M_IN_KM

/-- `Training.get_mean_speed` (lines 38-40): `get_distance() / duration`. -/
def Training.get_mean_speed (self : Training) : ℚ :=
  self.get_distance / self.duration

/-- `Training.get_spent_calories` (lines 42-44): the body is `pass`, so the
call raises nothing and returns Python `None` (embedded as `Except.ok none`). -/
def Training.get_spent_calories (_self : Training) : Except PyError (Option ℚ) :=
  Except.ok none

/-- Class `Running` (lines 57-74): base fields plus the instance attributes
`distance`, `speed`, `calories` stored eagerly by `Running.__init__`. -/
structure Running where
  action : ℚ
  duration : ℚ
  weight : ℚ
  distance : ℚ
  speed : ℚ
  calories : ℚ
  deriving DecidableEq

/-- `Running.CALORIES_MEAN_SPEED_MULTIPLIER` (line 59). -/
def Running.CALORIES_MEAN_SPEED_MULTIPLIER : ℚ := 18

/-- `Running.CALORIES_MEAN_SPEED_SHIFT` (line 60). -/
def Running.CALORIES_MEAN_SPEED_SHIFT : ℚ := 1.79

/-- The base-class part of a `Running` instance (the fields read by the
inherited `Training` methods). -/
def Running.toTraining (self : Running) : Training :=
  ⟨self.action, self.duration, self.weight⟩

/-- Body of `Running.get_spent_calories` (lines 68-74), as a function of the
base fields it reads (the method reads only `action`, `duration`, `weight`). -/
def Running.spent_calories_formula (t : Training) : ℚ :=
  (Running.CALORIES_MEAN_SPEED_MULTIPLIER * t.get_mean_speed
      + Running.CALORIES_MEAN_SPEED_SHIFT)
    * t.weight / Training.M_IN_KM * t.duration * Training.MIN_IN_H

/-- `Running.get_distance`: inherited from `Training` (lines 34-36). -/
def Running.get_distance (self : Running) : ℚ :=
  self.toTraining.get_distance

/-- `Running.get_mean_speed`: inherited from `Training` (lines 38-40). -/
def Running.get_mean_speed (self : Running) : ℚ :=
  self.toTraining.get_mean_speed

/-- `Running.get_spent_calories` (lines 68-74). -/
def Running.get_spent_calories (self : Running) : ℚ :=
  Running.spent_calories_formula self.toTraining

/-- `Running.__init__` (lines 62-66): stores the base fields, then eagerly
computes `distance`, `speed`, `calories`.  Computing `speed` divides by
`duration`, so a zero duration raises `ZeroDivisionError`. -/
def Running.init (action duration weight : ℚ) : Except PyError Running :=
  if duration = 0 then Except.error PyError.zeroDivisionError
  else
    let base : Training := ⟨action, duration, weight⟩
    Except.ok ⟨action, duration, weight,
      base.get_distance, base.get_mean_speed,
      Running.spent_calories_formula base⟩

/-- Class `SportsWalking` (lines 77-99). -/
structure SportsWalking where
  action : ℚ
  duration : ℚ
  weight : ℚ
  height : ℚ
  distance : ℚ
  speed : ℚ
  calories : ℚ
  deriving DecidableEq

/-- `SportsWalking.CALORIES_BURNED_PER_MINUTE` (line 79). -/
def SportsWalking.CALORIES_BURNED_PER_MINUTE : ℚ := 0.035

/-- `SportsWalking.CALORIES_COEFFICIENT` (line 80). -/
def SportsWalking.CALORIES_COEFFICIENT : ℚ := 0.029

/-- `SportsWalking.METERS_PER_SECOND_CONSTANT` (line 81). -/
def SportsWalking.METERS_PER_SECOND_CONSTANT : ℚ := 0.278

/-- `SportsWalking.SPEED_MULTIPLIER` (line 82). -/
def SportsWalking.SPEED_MULTIPLIER : ℚ := 2

/-- `SportsWalking.CM_INTO_METERS_CONSTANT` (line 83). -/
def SportsWalking.CM_INTO_METERS_CONSTANT : ℚ := 100

/-- The base-class part of a `SportsWalking` instance. -/
def SportsWalking.toTraining (self : SportsWalking) : Training :=
  ⟨self.action, self.duration, self.weight⟩

/-- Body of `SportsWalking.get_spent_calories` (lines 93-99), as a function of
the fields it reads. -/
def SportsWalking.spent_calories_formula (t : Training) (height : ℚ) : ℚ :=
  (SportsWalking.CALORIES_BURNED_PER_MINUTE * t.weight
      + ((t.get_mean_speed * SportsWalking.METERS_PER_SECOND_CONSTANT) ^ 2
          / (height / SportsWalking.CM_INTO_METERS_CONSTANT))
        * SportsWalking.CALORIES_COEFFICIENT * t.weight)
    * t.duration * Training.MIN_IN_H

/-- `SportsWalking.get_distance`: inherited from `Training` (lines 34-36). -/
def SportsWalking.get_distance (self : SportsWalking) : ℚ :=
  self.toTraining.get_distance

/-- `SportsWalking.get_mean_speed`: inherited from `Training` (lines 38-40). -/
def SportsWalking.get_mean_speed (self : SportsWalking) : ℚ :=
  self.toTraining.get_mean_speed

/-- `SportsWalking.get_spent_calories` (lines 93-99). -/
def SportsWalking.get_spent_calories (self : SportsWalking) : ℚ :=
  SportsWalking.spent_calories_formula self.toTraining self.height

/-- `SportsWalking.__init__` (lines 85-91): stores the fields, then eagerly
computes `distance`, `speed`, `calories`.  `speed` divides by `duration` and
the calorie formula divides by `height / 100`, so a zero duration or a zero
height raises `ZeroDivisionError`. -/
def SportsWalking.init (action duration weight height : ℚ) :
    Except PyError SportsWalking :=
  if duration = 0 then Except.error PyError.zeroDivisionError
  else if height = 0 then Except.error PyError.zeroDivisionError
  else
    let base : Training := ⟨action, duration, weight⟩
    Except.ok ⟨action, duration, weight, height,
      base.get_distance, base.get_mean_speed,
      SportsWalking.spent_calories_formula base height⟩

/-- Class `Swimming` (lines 102-129). -/
structure Swimming where
  action : ℚ
  duration : ℚ
  weight : ℚ
  length_pool : ℚ
  count_pool : ℚ
  distance : ℚ
  speed : ℚ
  calories : ℚ
  deriving DecidableEq

/-- `Swimming.LEN_STEP` (line 104): overrides the base 0.65. -/
def Swimming.LEN_STEP : ℚ := 1.38

/-- `Swimming.COEFFICIENT_FOR_SWIMMING` (line 105). -/
def Swimming.COEFFICIENT_FOR_SWIMMING : ℚ := 1.1

/-- `Swimming.SPEED_MULTIPLIER` (line 106). -/
def Swimming.SPEED_MULTIPLIER : ℚ := 2

/-- Body of `Swimming.get_distance` (lines 117-119), as a function of the
field it reads. -/
def Swimming.distance_formula (action : ℚ) : ℚ :=
  action * Swimming.LEN_STEP / Training.M_IN_KM

/-- Body of `Swimming.get_mean_speed` (lines 121-124), as a function of the
fields it reads. -/
def Swimming.mean_speed_formula (length_pool count_pool duration : ℚ) : ℚ :=
  length_pool * count_pool / Training.M_IN_KM / duration

/-- Body of `Swimming.get_spent_calories` (lines 126-129), as a function of
the fields it reads. -/
def Swimming.spent_calories_formula (length_pool count_pool duration weight : ℚ) : ℚ :=
  (Swimming.mean_speed_formula length_pool count_pool duration
      + Swimming.COEFFICIENT_FOR_SWIMMING)
    * Swimming.SPEED_MULTIPLIER * weight * duration

/-- `Swimming.get_distance` (lines 117-119): overrides the base method. -/
def Swimming.get_distance (self : Swimming) : ℚ :=
  Swimming.distance_formula self.action

/-- `Swimming.get_mean_speed` (lines 121-124): overrides the base method. -/
def Swimming.get_mean_speed (self : Swimming) : ℚ :=
  Swimming.mean_speed_formula self.length_pool self.count_pool self.duration

/-- `Swimming.get_spent_calories` (lines 126-129). -/
def Swimming.get_spent_calories (self : Swimming) : ℚ :=
  Swimming.spent_calories_formula self.length_pool self.count_pool
    self.duration self.weight

/-- `Swimming.__init__` (lines 108-115): stores the fields, then eagerly
computes `distance`, `speed`, `calories`.  `speed` divides by `duration`,
so a zero duration raises `ZeroDivisionError`. -/
def Swimming.init (action duration weight length_pool count_pool : ℚ) :
    Except PyError Swimming :=
  if duration = 0 then Except.error PyError.zeroDivisionError
  else
    Except.ok ⟨action, duration, weight, length_pool, count_pool,
      Swimming.distance_formula action,
      Swimming.mean_speed_formula length_pool count_pool duration,
      Swimming.spent_calories_formula length_pool count_pool duration weight⟩

/-- The possible runtime types of the object `read_package` returns: an
instance of one of the three concrete `Training` subclasses. -/
inductive TrainingObj where
  | running : Running → TrainingObj
  | sportsWalking : SportsWalking → TrainingObj
  | swimming : Swimming → TrainingObj
  deriving DecidableEq

/-- `read_package` (lines 132-138): looks the workout code up in
`{'RUN': Running, 'SWM': Swimming, 'WLK': SportsWalking}`; on a hit it calls
the class on the unpacked data list (a length mismatch raises `TypeError`,
and the constructor itself may raise); on a miss the initial `training = None`
is returned unchanged, raising nothing. -/
def read_package (workout_type : String) (data : List ℚ) :
    Except PyError (Option TrainingObj) :=
  if workout_type = "RUN" then
    match data with
    | [action, duration, weight] =>
        (Running.init action duration weight).map
          (fun t => some (TrainingObj.running t))
    | _ => Except.error PyError.typeError
  else if workout_type = "SWM" then
    match data with
    | [action, duration, weight, length_pool, count_pool] =>
        (Swimming.init action duration weight length_pool count_pool).map
          (fun t => some (TrainingObj.swimming t))
    | _ => Except.error PyError.typeError
  else if workout_type = "WLK" then
    match data with
    | [action, duration, weight, height] =>
        (SportsWalking.init action duration weight height).map
          (fun t => some (TrainingObj.sportsWalking t))
    | _ => Except.error PyError.typeError
  else Except.ok none

/-- Class `InfoMessage` (lines 1-16): the fields set by its `__init__`. -/
structure InfoMessage where
  training_type : String
  duration : ℚ
  distance : ℚ
  speed : ℚ
  calories : ℚ
  deriving DecidableEq

/-- The three digits after the decimal point of a `.3f` rendering:
`k < 1000` printed zero-padded to width three. -/
def pad3 (k : ℕ) : String :=
  String.mk [Nat.digitChar (k / 100 % 10), Nat.digitChar (k / 10 % 10),
    Nat.digitChar (k % 10)]

/-- Model of the Python fixed-point format specifier `:.3f`: the magnitude is
rounded to the nearest thousandth and rendered with exactly three digits
after the decimal point, with a leading minus sign for negative inputs. -/
def formatFixed3 (q : ℚ) : String :=
  let m : ℕ := (round (|q| * 1000)).toNat
  (if q < 0 then "-" else "") ++ Nat.repr (m / 1000) ++ "." ++ pad3 (m % 1000)

/-- `InfoMessage.get_message` (lines 11-16): the f-string concatenation, each
numeric field formatted with `:.3f`. -/
def InfoMessage.get_message (self : InfoMessage) : String :=
  "Тип тренировки: " ++ self.training_type ++ "; Длительность: "
    ++ formatFixed3 self.duration ++ " ч.; Дистанция: "
    ++ formatFixed3 self.distance ++ " км; Ср. скорость: "
    ++ formatFixed3 self.speed ++ " км/ч; Потрачено ккал: "
    ++ formatFixed3 self.calories ++ "."

/-- `Training.show_training_info` (lines 46-54) on a `Running` receiver:
`self.__class__.__name__` is `"Running"` and the `get_*` calls dispatch to
`Running`'s methods. -/
def Running.show_training_info (self : Running) : InfoMessage :=
  ⟨"Running", self.duration, self.get_distance, self.get_mean_speed,
    self.get_spent_calories⟩

/-- `Training.show_training_info` (lines 46-54) on a `SportsWalking` receiver. -/
def SportsWalking.show_training_info (self : SportsWalking) : InfoMessage :=
  ⟨"SportsWalking", self.duration, self.get_distance, self.get_mean_speed,
    self.get_spent_calories⟩

/-- `Training.show_training_info` (lines 46-54) on a `Swimming` receiver. -/
def Swimming.show_training_info (self : Swimming) : InfoMessage :=
  ⟨"Swimming", self.duration, self.get_distance, self.get_mean_speed,
    self.get_spent_calories⟩

/-! Method calls in explicit state-passing form: a Python method call takes
the receiver's state and yields the return value together with the state
after the call.  None of the method bodies (lines 34-54, 68-74, 93-99,
117-129) assigns to `self`, so each returns the receiver unchanged. -/

/-- `Running.get_distance` as a state transformer. -/
def Running.get_distance_st (self : Running) : ℚ × Running :=
  (self.get_distance, self)

/-- `Running.get_mean_speed` as a state transformer. -/
def Running.get_mean_speed_st (self : Running) : ℚ × Running :=
  (self.get_mean_speed, self)

/-- `Running.get_spent_calories` as a state transformer. -/
def Running.get_spent_calories_st (self : Running) : ℚ × Running :=
  (self.get_spent_calories, self)

/-- `Running.show_training_info` as a state transformer. -/
def Running.show_training_info_st (self : Running) : InfoMessage × Running :=
  (self.show_training_info, self)

/-- `SportsWalking.get_distance` as a state transformer. -/
def SportsWalking.get_distance_st (self : SportsWalking) : ℚ × SportsWalking :=
  (self.get_distance, self)

/-- `SportsWalking.get_mean_speed` as a state transformer. -/
def SportsWalking.get_mean_speed_st (self : SportsWalking) : ℚ × SportsWalking :=
  (self.get_mean_speed, self)

/-- `SportsWalking.get_spent_calories` as a state transformer. -/
def SportsWalking.get_spent_calories_st (self : SportsWalking) : ℚ × SportsWalking :=
  (self.get_spent_calories, self)

/-- `SportsWalking.show_training_info` as a state transformer. -/
def SportsWalking.show_training_info_st (self : SportsWalking) :
    InfoMessage × SportsWalking :=
  (self.show_training_info, self)

/-- `Swimming.get_distance` as a state transformer. -/
def Swimming.get_distance_st (self : Swimming) : ℚ × Swimming :=
  (self.get_distance, self)

/-- `Swimming.get_mean_speed` as a state transformer. -/
def Swimming.get_mean_speed_st (self : Swimming) : ℚ × Swimming :=
  (self.get_mean_speed, self)

/-- `Swimming.get_spent_calories` as a state transformer. -/
def Swimming.get_spent_calories_st (self : Swimming) : ℚ × Swimming :=
  (self.get_spent_calories, self)

/-- `Swimming.show_training_info` as a state transformer. -/
def Swimming.show_training_info_st (self : Swimming) :
    InfoMessage × Swimming :=
  (self.show_training_info, self)

/-- Equality of embedded call results is decidable. -/
instance {ε α : Type} [DecidableEq ε] [DecidableEq α] : DecidableEq (Except ε α) :=
  fun a b =>
    match a, b with
    | Except.ok x, Except.ok y =>
        if h : x = y then isTrue (by rw [h]) else
          isFalse (fun hc => h (by cases hc; rfl))
    | Except.ok _, Except.error _ => isFalse (fun hc => Except.noConfusion hc)
    | Except.error _, Except.ok _ => isFalse (fun hc => Except.noConfusion hc)
    | Except.error e, Except.error f =>
        if h : e = f then isTrue (by rw [h]) else
          isFalse (fun hc => h (by cases hc; rfl))

/-- The `Running` instance built from the fixed sample `('RUN', [15000, 1, 75])`
(line 151), with its eagerly-stored derived fields. -/
def running_sample : Running := ⟨15000, 1, 75, 9.75, 9.75, 797.805⟩

/-- The `SportsWalking` instance built from the fixed sample
`('WLK', [9000, 1, 75, 180])` (line 149). -/
def walking_sample : SportsWalking := ⟨9000, 1, 75, 180, 5.85, 5.85, 349.251747525⟩

/-- The `Swimming` instance built from the fixed sample
`('SWM', [720, 1, 80, 25, 40])` (line 150). -/
def swimming_sample : Swimming := ⟨720, 1, 80, 25, 40, 0.9936, 1, 336⟩

theorem running_sample_init : Running.init 15000 1 75 = Except.ok running_sample := by
  simp only [Running.init]
  rw [if_neg (show ¬ (1 : ℚ) = 0 by norm_num)]
  norm_num [running_sample, Running.mk.injEq, Training.get_distance,
    Training.get_mean_speed, Running.spent_calories_formula, Training.LEN_STEP,
    Training.M_IN_KM, Training.MIN_IN_H, Running.CALORIES_MEAN_SPEED_MULTIPLIER,
    Running.CALORIES_MEAN_SPEED_SHIFT]

theorem walking_sample_init :
    SportsWalking.init 9000 1 75 180 = Except.ok walking_sample := by
  simp only [SportsWalking.init]
  rw [if_neg (show ¬ (1 : ℚ) = 0 by norm_num),
    if_neg (show ¬ (180 : ℚ) = 0 by norm_num)]
  norm_num [walking_sample, SportsWalking.mk.injEq, Training.get_distance,
    Training.get_mean_speed, SportsWalking.spent_calories_formula,
    Training.LEN_STEP, Training.M_IN_KM, Training.MIN_IN_H,
    SportsWalking.CALORIES_BURNED_PER_MINUTE, SportsWalking.CALORIES_COEFFICIENT,
    SportsWalking.METERS_PER_SECOND_CONSTANT,
    SportsWalking.CM_INTO_METERS_CONSTANT]

theorem swimming_sample_init :
    Swimming.init 720 1 80 25 40 = Except.ok swimming_sample := by
  simp only [Swimming.init]
  rw [if_neg (show ¬ (1 : ℚ) = 0 by norm_num)]
  norm_num [swimming_sample, Swimming.mk.injEq, Swimming.distance_formula,
    Swimming.mean_speed_formula, Swimming.spent_calories_formula,
    Swimming.LEN_STEP, Training.M_IN_KM, Swimming.COEFFICIENT_FOR_SWIMMING,
    Swimming.SPEED_MULTIPLIER]

/-- Claim C4: for every sample, `get_distance()` equals
`action_count * step_length_km / 1000`, where the step length is 0.65 (the
base class `LEN_STEP`) for `Running` and `SportsWalking` and 1.38 (the
override) for `Swimming`. -/
theorem C4_distance_formula (r : Running) (w : SportsWalking) (s : Swimming) :
    r.get_distance = r.action * 0.65 / 1000 ∧
    w.get_distance = w.action * 0.65 / 1000 ∧
    s.get_distance = s.action * 1.38 / 1000 := by
  refine ⟨?_, ?_, ?_⟩ <;>
    simp [Running.get_distance, SportsWalking.get_distance, Swimming.get_distance,
      Training.get_distance, Running.toTraining, SportsWalking.toTraining,
      Swimming.distance_formula, Training.LEN_STEP, Swimming.LEN_STEP,
      Training.M_IN_KM]

/-- Claim C5: for `Running` and `SportsWalking` with nonzero duration,
`get_mean_speed()` is `get_distance() / duration`; for `Swimming` it is
`length_pool * count_pool / 1000 / duration`, computed from the pool
geometry rather than from `Swimming.get_distance`. -/
theorem C5_mean_speed (r : Running) (w : SportsWalking) (s : Swimming)
    (hr : r.duration ≠ 0) (hw : w.duration ≠ 0) (hs : s.duration ≠ 0) :
    r.get_mean_speed = r.get_distance / r.duration ∧
    w.get_mean_speed = w.get_distance / w.duration ∧
    s.get_mean_speed = s.length_pool * s.count_pool / 1000 / s.duration := by
  refine ⟨?_, ?_, ?_⟩ <;>
    simp [Running.get_mean_speed, Running.get_distance,
      SportsWalking.get_mean_speed, SportsWalking.get_distance,
      Swimming.get_mean_speed, Swimming.mean_speed_formula,
      Training.get_mean_speed, Training.get_distance,
      Running.toTraining, SportsWalking.toTraining, Training.M_IN_KM]

theorem C5_mean_speed_witness :
    running_sample.duration ≠ 0 ∧ walking_sample.duration ≠ 0 ∧
    swimming_sample.duration ≠ 0 ∧
    (running_sample.get_mean_speed
        = running_sample.get_distance / running_sample.duration ∧
      walking_sample.get_mean_speed
        = walking_sample.get_distance / walking_sample.duration ∧
      swimming_sample.get_mean_speed
        = swimming_sample.length_pool * swimming_sample.count_pool / 1000
          / swimming_sample.duration) :=
  ⟨by decide, by decide, by decide,
    C5_mean_speed running_sample walking_sample swimming_sample
      (by decide) (by decide) (by decide)⟩

/-- Claim C6: for every `Running` sample with nonzero duration,
`get_spent_calories()` equals
`(18 * mean_speed + 1.79) * weight / 1000 * duration * 60`, where
`mean_speed` is `action * 0.65 / 1000 / duration`. -/
theorem C6_running_calories (r : Running) (h : r.duration ≠ 0) :
    r.get_spent_calories
      = (18 * (r.action * 0.65 / 1000 / r.duration) + 1.79)
        * r.weight / 1000 * r.duration * 60 := by
  simp [Running.get_spent_calories, Running.spent_calories_formula,
    Training.get_mean_speed, Training.get_distance, Running.toTraining,
    Running.CALORIES_MEAN_SPEED_MULTIPLIER, Running.CALORIES_MEAN_SPEED_SHIFT,
    Training.LEN_STEP, Training.M_IN_KM, Training.MIN_IN_H]

theorem C6_running_calories_witness :
    running_sample.duration ≠ 0 ∧
    running_sample.get_spent_calories
      = (18 * (running_sample.action * 0.65 / 1000 / running_sample.duration)
          + 1.79) * running_sample.weight / 1000 * running_sample.duration * 60 :=
  ⟨by decide, C6_running_calories running_sample (by decide)⟩

/-- Claim C7: for every `SportsWalking` sample with nonzero duration and
nonzero height, `get_spent_calories()` equals
`(0.035 * weight + (mean_speed * 0.278)^2 / (height / 100) * 0.029 * weight)
* duration * 60`, where `mean_speed` is the inherited
`action * 0.65 / 1000 / duration`. -/
theorem C7_walking_calories (w : SportsWalking)
    (hd : w.duration ≠ 0) (hh : w.height ≠ 0) :
    w.get_spent_calories
      = (0.035 * w.weight
          + (w.action * 0.65 / 1000 / w.duration * 0.278) ^ 2
            / (w.height / 100) * 0.029 * w.weight)
        * w.duration * 60 := by
  simp [SportsWalking.get_spent_calories, SportsWalking.spent_calories_formula,
    Training.get_mean_speed, Training.get_distance, SportsWalking.toTraining,
    SportsWalking.CALORIES_BURNED_PER_MINUTE, SportsWalking.CALORIES_COEFFICIENT,
    SportsWalking.METERS_PER_SECOND_CONSTANT,
    SportsWalking.CM_INTO_METERS_CONSTANT,
    Training.LEN_STEP, Training.M_IN_KM, Training.MIN_IN_H]

theorem C7_walking_calories_witness :
    walking_sample.duration ≠ 0 ∧ walking_sample.height ≠ 0 ∧
    walking_sample.get_spent_calories
      = (0.035 * walking_sample.weight
          + (walking_sample.action * 0.65 / 1000 / walking_sample.duration
              * 0.278) ^ 2
            / (walking_sample.height / 100) * 0.029 * walking_sample.weight)
        * walking_sample.duration * 60 :=
  ⟨by decide, by decide, C7_walking_calories walking_sample (by decide) (by decide)⟩

/-- Claim C8: for every `Swimming` sample with nonzero duration,
`get_spent_calories()` equals `(mean_speed + 1.1) * 2 * weight * duration`
with `mean_speed = length_pool * count_pool / 1000 / duration`; on the fixed
sample `(720, 1, 80, 25, 40)` the stored calories are exactly 336. -/
theorem C8_swimming_calories (s : Swimming) (h : s.duration ≠ 0) :
    s.get_spent_calories
      = (s.length_pool * s.count_pool / 1000 / s.duration + 1.1)
        * 2 * s.weight * s.duration ∧
    Swimming.init 720 1 80 25 40 = Except.ok swimming_sample ∧
    swimming_sample.calories = 336 := by
  refine ⟨?_, swimming_sample_init, rfl⟩
  simp [Swimming.get_spent_calories, Swimming.spent_calories_formula,
    Swimming.mean_speed_formula, Swimming.COEFFICIENT_FOR_SWIMMING,
    Swimming.SPEED_MULTIPLIER, Training.M_IN_KM]

theorem C8_swimming_calories_witness :
    swimming_sample.duration ≠ 0 ∧
    (swimming_sample.get_spent_calories
        = (swimming_sample.length_pool * swimming_sample.count_pool / 1000
            / swimming_sample.duration + 1.1)
          * 2 * swimming_sample.weight * swimming_sample.duration ∧
      Swimming.init 720 1 80 25 40 = Except.ok swimming_sample ∧
      swimming_sample.calories = 336) :=
  ⟨by decide, C8_swimming_calories swimming_sample (by decide)⟩

/-- Claim C1 fails as stated: the dispatcher raises nothing on an unknown
code; `read_package('XYZ', [9000, 1, 75])` returns Python `None`
(`Except.ok none`), not an invalid-activity-code error. -/
theorem C1_counterexample :
    read_package "XYZ" [9000, 1, 75] = Except.ok none ∧
    ¬ ∃ e : PyError, read_package "XYZ" [9000, 1, 75] = Except.error e := by
  have h : read_package "XYZ" [9000, 1, 75] = Except.ok none := by
    simp only [read_package]
    rw [if_neg (by decide), if_neg (by decide), if_neg (by decide)]
  refine ⟨h, ?_⟩
  rintro ⟨e, he⟩
  rw [h] at he
  exact Except.noConfusion he

/-- Claim C1 (amended): for every code outside {"RUN", "WLK", "SWM"} the
dispatcher returns `None` without raising; for each recognized code with
its fixed positional parameter list (and nonzero divisors) it returns the
correctly-typed calculator carrying those parameters. -/
theorem C1_read_package_dispatch (code : String) (data : List ℚ)
    (a d w hgt lp cp : ℚ)
    (hrun : code ≠ "RUN") (hwlk : code ≠ "WLK") (hswm : code ≠ "SWM")
    (hd : d ≠ 0) (hh : hgt ≠ 0) :
    read_package code data = Except.ok none ∧
    (∃ r : Running, read_package "RUN" [a, d, w]
        = Except.ok (some (TrainingObj.running r)) ∧
      r.action = a ∧ r.duration = d ∧ r.weight = w) ∧
    (∃ sw : SportsWalking, read_package "WLK" [a, d, w, hgt]
        = Except.ok (some (TrainingObj.sportsWalking sw)) ∧
      sw.action = a ∧ sw.duration = d ∧ sw.weight = w ∧ sw.height = hgt) ∧
    (∃ s : Swimming, read_package "SWM" [a, d, w, lp, cp]
        = Except.ok (some (TrainingObj.swimming s)) ∧
      s.action = a ∧ s.duration = d ∧ s.weight = w ∧
      s.length_pool = lp ∧ s.count_pool = cp) := by
  refine ⟨?_, ?_, ?_, ?_⟩
  · simp only [read_package]
    rw [if_neg hrun, if_neg hswm, if_neg hwlk]
  · refine ⟨⟨a, d, w, Training.get_distance ⟨a, d, w⟩,
      Training.get_mean_speed ⟨a, d, w⟩,
      Running.spent_calories_formula ⟨a, d, w⟩⟩, ?_, rfl, rfl, rfl⟩
    simp only [read_package, Running.init]
    rw [if_pos trivial, if_neg hd]
    rfl
  · refine ⟨⟨a, d, w, hgt, Training.get_distance ⟨a, d, w⟩,
      Training.get_mean_speed ⟨a, d, w⟩,
      SportsWalking.spent_calories_formula ⟨a, d, w⟩ hgt⟩, ?_, rfl, rfl, rfl, rfl⟩
    simp only [read_package, SportsWalking.init]
    rw [if_neg (by decide), if_neg (by decide), if_pos trivial, if_neg hd,
      if_neg hh]
    rfl
  · refine ⟨⟨a, d, w, lp, cp, Swimming.distance_formula a,
      Swimming.mean_speed_formula lp cp d,
      Swimming.spent_calories_formula lp cp d w⟩, ?_, rfl, rfl, rfl, rfl, rfl⟩
    simp only [read_package, Swimming.init]
    rw [if_neg (by decide), if_pos trivial, if_neg hd]
    rfl

theorem C1_read_package_dispatch_witness :
    ("XYZ" : String) ≠ "RUN" ∧ ("XYZ" : String) ≠ "WLK" ∧
    ("XYZ" : String) ≠ "SWM" ∧ (1 : ℚ) ≠ 0 ∧ (180 : ℚ) ≠ 0 ∧
    (read_package "XYZ" [9000, 1, 75] = Except.ok none ∧
      (∃ r : Running, read_package "RUN" [15000, 1, 75]
          = Except.ok (some (TrainingObj.running r)) ∧
        r.action = 15000 ∧ r.duration = 1 ∧ r.weight = 75) ∧
      (∃ sw : SportsWalking, read_package "WLK" [15000, 1, 75, 180]
          = Except.ok (some (TrainingObj.sportsWalking sw)) ∧
        sw.action = 15000 ∧ sw.duration = 1 ∧ sw.weight = 75 ∧
        sw.height = 180) ∧
      (∃ s : Swimming, read_package "SWM" [15000, 1, 75, 25, 40]
          = Except.ok (some (TrainingObj.swimming s)) ∧
        s.action = 15000 ∧ s.duration = 1 ∧ s.weight = 75 ∧
        s.length_pool = 25 ∧ s.count_pool = 40)) :=
  ⟨by decide, by decide, by decide, by norm_num, by norm_num,
    C1_read_package_dispatch "XYZ" [9000, 1, 75] 15000 1 75 180 25 40
      (by decide) (by decide) (by decide) (by norm_num) (by norm_num)⟩

/-- Claim C2 fails as stated: for the Running sample (15000, 1, 75) the
formula value is 797.805 kcal, which is 4.125 away from the spec's stated
golden value 801.93, so the two do not agree even to three decimals. -/
theorem C2_counterexample :
    Running.init 15000 1 75 = Except.ok running_sample ∧
    running_sample.calories = 797.805 ∧
    |running_sample.calories - 801.93| = 4.125 ∧
    ¬ |running_sample.calories - 801.93| < 0.005 := by
  have habs : |running_sample.calories - 801.93| = (4.125 : ℚ) := by
    rw [show running_sample.calories = 797.805 from rfl,
      show (797.805 : ℚ) - 801.93 = -(4.125 : ℚ) by norm_num, abs_neg,
      abs_of_pos (show (0 : ℚ) < 4.125 by norm_num)]
  refine ⟨running_sample_init, rfl, habs, ?_⟩
  rw [habs]
  norm_num

/-- Claim C2 (amended): for the Running sample (15000, 1, 75) the calculator
returns distance 9.75 km, mean speed 9.75 km/h, and calories exactly equal
to the formula value (18 * 9.75 + 1.79) * 75 / 1000 * 1 * 60 = 797.805 kcal. -/
theorem C2_running_sample_values :
    Running.init 15000 1 75 = Except.ok running_sample ∧
    running_sample.get_distance = 9.75 ∧
    running_sample.get_mean_speed = 9.75 ∧
    running_sample.get_spent_calories
      = (18 * 9.75 + 1.79) * 75 / 1000 * 1 * 60 ∧
    running_sample.get_spent_calories = 797.805 := by
  refine ⟨running_sample_init, ?_, ?_, ?_, ?_⟩ <;>
    norm_num [running_sample, Running.get_distance, Running.get_mean_speed,
      Running.get_spent_calories, Running.spent_calories_formula,
      Training.get_mean_speed, Training.get_distance, Running.toTraining,
      Training.LEN_STEP, Training.M_IN_KM, Training.MIN_IN_H,
      Running.CALORIES_MEAN_SPEED_MULTIPLIER, Running.CALORIES_MEAN_SPEED_SHIFT]

/-- Claim C3 fails as stated: calling `get_spent_calories` on the abstract
base does not raise a not-implemented error; the `pass` body returns `None`. -/
theorem C3_counterexample :
    Training.get_spent_calories ⟨15000, 1, 75⟩ = Except.ok none ∧
    Training.get_spent_calories ⟨15000, 1, 75⟩
      ≠ Except.error PyError.notImplementedError :=
  ⟨rfl, fun h => Except.noConfusion h⟩

/-- Claim C3 (amended): on any receiver the base `get_spent_calories` returns
Python `None` without raising: it never produces a numeric calorie value and
never raises any error. -/
theorem C3_base_calories_none (t : Training) :
    Training.get_spent_calories t = Except.ok none ∧
    (∀ q : ℚ, Training.get_spent_calories t ≠ Except.ok (some q)) ∧
    (∀ e : PyError, Training.get_spent_calories t ≠ Except.error e) :=
  ⟨rfl, fun q h => Option.noConfusion (Except.ok.inj h),
    fun e h => Except.noConfusion h⟩

/-- The string ends with a decimal point followed by exactly three digit
characters. -/
def EndsWithThreeDecimals (s : String) : Prop :=
  ∃ (p : List Char) (d1 d2 d3 : Char),
    s.data = p ++ ['.', d1, d2, d3] ∧
    d1.isDigit = true ∧ d2.isDigit = true ∧ d3.isDigit = true

theorem data_append_hw (s t : String) : (s ++ t).data = s.data ++ t.data := by
  cases s
  cases t
  rfl

theorem digitChar_isDigit (k : ℕ) (h : k < 10) :
    (Nat.digitChar k).isDigit = true := by
  interval_cases k <;> decide

/-- Every `.3f` rendering ends with a decimal point and exactly three digits. -/
theorem formatFixed3_three_decimals (q : ℚ) :
    EndsWithThreeDecimals (formatFixed3 q) := by
  unfold formatFixed3 EndsWithThreeDecimals
  refine ⟨((if q < 0 then "-" else "")
      ++ Nat.repr ((round (|q| * 1000)).toNat / 1000)).data,
    Nat.digitChar ((round (|q| * 1000)).toNat % 1000 / 100 % 10),
    Nat.digitChar ((round (|q| * 1000)).toNat % 1000 / 10 % 10),
    Nat.digitChar ((round (|q| * 1000)).toNat % 1000 % 10), ?_, ?_, ?_, ?_⟩
  · rw [data_append_hw, data_append_hw, data_append_hw]
    simp [pad3, List.append_assoc]
  · exact digitChar_isDigit _ (Nat.mod_lt _ (by norm_num))
  · exact digitChar_isDigit _ (Nat.mod_lt _ (by norm_num))
  · exact digitChar_isDigit _ (Nat.mod_lt _ (by norm_num))

theorem formatFixed3_five : formatFixed3 5 = "5.000" := by
  have h1 : round (|(5 : ℚ)| * 1000) = 5000 := by
    rw [show |(5 : ℚ)| * 1000 = 5000 by norm_num, round_eq]
    norm_num
  simp only [formatFixed3, h1]
  decide

/-- Claim C9: `get_message` produces exactly the template
"Тип тренировки: ...; Длительность: ... ч.; Дистанция: ... км;
Ср. скорость: ... км/ч; Потрачено ккал: ...." with every numeric field
rendered with exactly three decimal digits regardless of magnitude; in
particular the value 5 renders as "5.000". -/
theorem C9_message_format (i : InfoMessage) :
    i.get_message
      = "Тип тренировки: " ++ i.training_type ++ "; Длительность: "
        ++ formatFixed3 i.duration ++ " ч.; Дистанция: "
        ++ formatFixed3 i.distance ++ " км; Ср. скорость: "
        ++ formatFixed3 i.speed ++ " км/ч; Потрачено ккал: "
        ++ formatFixed3 i.calories ++ "." ∧
    EndsWithThreeDecimals (formatFixed3 i.duration) ∧
    EndsWithThreeDecimals (formatFixed3 i.distance) ∧
    EndsWithThreeDecimals (formatFixed3 i.speed) ∧
    EndsWithThreeDecimals (formatFixed3 i.calories) ∧
    formatFixed3 5 = "5.000" :=
  ⟨rfl, formatFixed3_three_decimals _, formatFixed3_three_decimals _,
    formatFixed3_three_decimals _, formatFixed3_three_decimals _,
    formatFixed3_five⟩

/-- Claim C10: each concrete constructor (given a nonzero duration, and a
nonzero height for walking) succeeds and eagerly stores `distance`, `speed`,
`calories` equal to what `get_distance()`, `get_mean_speed()`,
`get_spent_calories()` return on the constructed object, and every
subsequent operation returns the receiver with all instance fields
unchanged. -/
theorem C10_eager_fields (a d w hgt lp cp : ℚ) (hd : d ≠ 0) (hh : hgt ≠ 0) :
    (∃ r : Running, Running.init a d w = Except.ok r ∧
      r.distance = r.get_distance ∧ r.speed = r.get_mean_speed ∧
      r.calories = r.get_spent_calories ∧
      r.get_distance_st = (r.get_distance, r) ∧
      r.get_mean_speed_st = (r.get_mean_speed, r) ∧
      r.get_spent_calories_st = (r.get_spent_calories, r) ∧
      r.show_training_info_st = (r.show_training_info, r)) ∧
    (∃ sw : SportsWalking, SportsWalking.init a d w hgt = Except.ok sw ∧
      sw.distance = sw.get_distance ∧ sw.speed = sw.get_mean_speed ∧
      sw.calories = sw.get_spent_calories ∧
      sw.get_distance_st = (sw.get_distance, sw) ∧
      sw.get_mean_speed_st = (sw.get_mean_speed, sw) ∧
      sw.get_spent_calories_st = (sw.get_spent_calories, sw) ∧
      sw.show_training_info_st = (sw.show_training_info, sw)) ∧
    (∃ s : Swimming, Swimming.init a d w lp cp = Except.ok s ∧
      s.distance = s.get_distance ∧ s.speed = s.get_mean_speed ∧
      s.calories = s.get_spent_calories ∧
      s.get_distance_st = (s.get_distance, s) ∧
      s.get_mean_speed_st = (s.get_mean_speed, s) ∧
      s.get_spent_calories_st = (s.get_spent_calories, s) ∧
      s.show_training_info_st = (s.show_training_info, s)) := by
  refine ⟨?_, ?_, ?_⟩
  · refine ⟨⟨a, d, w, Training.get_distance ⟨a, d, w⟩,
      Training.get_mean_speed ⟨a, d, w⟩,
      Running.spent_calories_formula ⟨a, d, w⟩⟩,
      ?_, rfl, rfl, rfl, rfl, rfl, rfl, rfl⟩
    simp only [Running.init]
    rw [if_neg hd]
  · refine ⟨⟨a, d, w, hgt, Training.get_distance ⟨a, d, w⟩,
      Training.get_mean_speed ⟨a, d, w⟩,
      SportsWalking.spent_calories_formula ⟨a, d, w⟩ hgt⟩,
      ?_, rfl, rfl, rfl, rfl, rfl, rfl, rfl⟩
    simp only [SportsWalking.init]
    rw [if_neg hd, if_neg hh]
  · refine ⟨⟨a, d, w, lp, cp, Swimming.distance_formula a,
      Swimming.mean_speed_formula lp cp d,
      Swimming.spent_calories_formula lp cp d w⟩,
      ?_, rfl, rfl, rfl, rfl, rfl, rfl, rfl⟩
    simp only [Swimming.init]
    rw [if_neg hd]

theorem C10_eager_fields_witness :
    (1 : ℚ) ≠ 0 ∧ (180 : ℚ) ≠ 0 ∧
    ((∃ r : Running, Running.init 15000 1 75 = Except.ok r ∧
        r.distance = r.get_distance ∧ r.speed = r.get_mean_speed ∧
        r.calories = r.get_spent_calories ∧
        r.get_distance_st = (r.get_distance, r) ∧
        r.get_mean_speed_st = (r.get_mean_speed, r) ∧
        r.get_spent_calories_st = (r.get_spent_calories, r) ∧
        r.show_training_info_st = (r.show_training_info, r)) ∧
      (∃ sw : SportsWalking, SportsWalking.init 15000 1 75 180 = Except.ok sw ∧
        sw.distance = sw.get_distance ∧ sw.speed = sw.get_mean_speed ∧
        sw.calories = sw.get_spent_calories ∧
        sw.get_distance_st = (sw.get_distance, sw) ∧
        sw.get_mean_speed_st = (sw.get_mean_speed, sw) ∧
        sw.get_spent_calories_st = (sw.get_spent_calories, sw) ∧
        sw.show_training_info_st = (sw.show_training_info, sw)) ∧
      (∃ s : Swimming, Swimming.init 15000 1 75 25 40 = Except.ok s ∧
        s.distance = s.get_distance ∧ s.speed = s.get_mean_speed ∧
        s.calories = s.get_spent_calories ∧
        s.get_distance_st = (s.get_distance, s) ∧
        s.get_mean_speed_st = (s.get_mean_speed, s) ∧
        s.get_spent_calories_st = (s.get_spent_calories, s) ∧
        s.show_training_info_st = (s.show_training_info, s))) :=
  ⟨by norm_num, by norm_num,
    C10_eager_fields 15000 1 75 180 25 40 (by norm_num) (by norm_num)⟩
